import Mathlib

/-!
Formalization of the ChainBridge ethereum chain composition layer
(`chains/ethereum/chain.go`) and of the Listener pipeline it wires up.

Pure, executable shallow embedding: Go functions returning `(T, error)`
become `Except Err T` (or an explicit `Option T × Option Err` pair where
the two Go return values are stated about separately), external
collaborators (keystore, blockstore backend, RPC connection, contract
binding constructors) become environment records of fallible operations,
and side-effect ordering is captured by an explicit trace of steps.
-/

namespace ChainBridge

/-- Errors are represented abstractly by their message string. -/
abbrev Err := String

/-- Ethereum addresses, abstracted to their numeric value. -/
abbrev Address := Nat

/-- Chain identifiers (`msg.ChainId`). -/
abbrev ChainId := Nat

/-- Abstract handles for external collaborator objects. -/
abbrev Blockstore := Nat

abbrev Keypair := Nat

abbrev Connection := Nat

abbrev BridgeContract := Nat

abbrev Erc20HandlerContract := Nat

/-- Result of Go `big.Int.Cmp`: -1 when smaller, 0 when equal, 1 when greater. -/
def bigCmp (a b : Int) : Int :=
  if a < b then -1 else if a = b then 0 else 1

/-- Embedding of the ethereum `Config` (the fields read by `chain.go` and the
listener test). `startBlock` is a `big.Int` in Go, embedded as `Int`. -/
structure Config where
  id : ChainId
  contract : Address
  bridgeContract : Address
  erc20HandlerContract : Address
  genericHandlerContract : Address
  freshStart : Bool
  startBlock : Int
  blockstorePath : String
  keystorePath : String
  deriving Repr, DecidableEq

/-- Environment for `setupBlockstore`: the blockstore backend collaborator
(`blockstore.NewBlockstore` and `Blockstore.TryLoadLatestBlock`). -/
structure BlockstoreEnv where
  newBlockstore : Except Err Blockstore
  tryLoadLatestBlock : Blockstore → Except Err Int

/-- Embedding of `setupBlockstore` (chain.go:37-55): create the blockstore;
unless `cfg.freshStart`, load the latest stored block and replace
`cfg.startBlock` with it when `latestBlock.Cmp(cfg.startBlock) == 1`.
The Go code mutates `*Config`; here the updated config is returned. -/
def setupBlockstore (env : BlockstoreEnv) (cfg : Config) :
    Except Err (Blockstore × Config) :=
  match env.newBlockstore with
  | .error e => .error e
  | .ok bs =>
    if !cfg.freshStart then
      match env.tryLoadLatestBlock bs with
      | .error e => .error e
      | .ok latestBlock =>
        if bigCmp latestBlock cfg.startBlock = 1 then
          .ok (bs, { cfg with startBlock := latestBlock })
        else
          .ok (bs, cfg)
    else
      .ok (bs, cfg)

/-- Embedding of `core.ChainConfig` (the fields read by `chain.go`). -/
structure ChainConfig where
  id : ChainId
  name : String
  insecure : Bool
  deriving Repr, DecidableEq

/-- Canonical cross-chain message types (`msg.Type`). -/
inductive TransferType where
  | FungibleTransfer
  | NonFungibleTransfer
  | GenericTransfer
  deriving Repr, DecidableEq

/-- One entry of a Message's ordered `Metadata` payload (`[]interface{}` in Go):
either an address or a byte string. -/
inductive MetaItem where
  | addr (a : Address)
  | bytes (b : List Nat)
  deriving Repr, DecidableEq

/-- Embedding of `msg.Message`. The Go field `Type` is embedded as `MsgType`
(`Type` is reserved in Lean). -/
structure Message where
  Source : ChainId
  Destination : ChainId
  MsgType : TransferType
  DepositNonce : Nat
  Metadata : List MetaItem
  deriving Repr, DecidableEq

/-- Embedding of the `Writer`: connection, config and its bridge-contract
binding (`none` until `SetContract`). -/
structure Writer where
  conn : Connection
  cfg : Config
  bridgeContract : Option BridgeContract
  deriving Repr, DecidableEq

/-- Embedding of the `router.Router` registry: the `(ChainId, Writer)` pairs
registered through `Listen`, in registration order. -/
structure Router where
  registered : List (ChainId × Writer)
  deriving Repr, DecidableEq

/-- Embedding of `Router.Listen`: register `w` as the writer for chain `id`. -/
def Router.Listen (r : Router) (id : ChainId) (w : Writer) : Router :=
  { registered := r.registered ++ [(id, w)] }

/-- Embedding of the `Listener`: connection, config, blockstore, its two
contract bindings and its router handle (`none` until set), plus whether its
polling loop has been launched. -/
structure Listener where
  conn : Connection
  cfg : Config
  bs : Blockstore
  bridgeContract : Option BridgeContract
  erc20HandlerContract : Option Erc20HandlerContract
  router : Option Router
  started : Bool
  deriving Repr, DecidableEq

/-- Modelled from the spec: `NewListener` (the Listener implementation is not
under src/) constructs an idle Listener over the given connection, config and
blockstore, with no contract bindings and no router set. -/
def NewListener (conn : Connection) (cfg : Config) (bs : Blockstore) : Listener :=
  { conn := conn, cfg := cfg, bs := bs, bridgeContract := none,
    erc20HandlerContract := none, router := none, started := false }

/-- Modelled from the spec: `Listener.SetContracts` stores the bridge and
ERC20-handler bindings on the listener. -/
def Listener.SetContracts (l : Listener) (b : BridgeContract)
    (e : Erc20HandlerContract) : Listener :=
  { l with bridgeContract := some b, erc20HandlerContract := some e }

/-- Modelled from the spec: `Listener.SetRouter` stores the router handle. -/
def Listener.SetRouter (l : Listener) (r : Router) : Listener :=
  { l with router := some r }

/-- Modelled from the spec: `NewWriter` constructs a Writer with no contract
binding (the Writer implementation is not under src/). -/
def NewWriter (conn : Connection) (cfg : Config) : Writer :=
  { conn := conn, cfg := cfg, bridgeContract := none }

/-- Modelled from the spec: `Writer.SetContract` stores the bridge binding. -/
def Writer.SetContract (w : Writer) (b : BridgeContract) : Writer :=
  { w with bridgeContract := some b }

/-- Embedding of the `Chain` struct (chain.go:20-25). -/
structure Chain where
  cfg : ChainConfig
  conn : Connection
  listener : Listener
  writer : Writer
  deriving Repr, DecidableEq

/-- Environment for `InitializeChain`: its external collaborators
(config parsing, keystore, blockstore backend, connection, binding
constructors), each a fallible operation. -/
structure InitEnv where
  parseChainConfig : ChainConfig → Except Err Config
  keypairFromAddress : Except Err Keypair
  blockstoreEnv : BlockstoreEnv
  newConnection : Connection
  connect : Except Err Unit
  ensureHasBytecode : Address → Except Err Unit
  newBridge : Address → Connection → Except Err BridgeContract
  newErc20Handler : Address → Connection → Except Err Erc20HandlerContract

/-- Embedding of `createBridgeContract` (chain.go:27-29). -/
def createBridgeContract (env : InitEnv) (addr : Address) (conn : Connection) :
    Except Err BridgeContract :=
  env.newBridge addr conn

/-- Embedding of `createErc20HandlerContract` (chain.go:31-33). -/
def createErc20HandlerContract (env : InitEnv) (addr : Address)
    (conn : Connection) : Except Err Erc20HandlerContract :=
  env.newErc20Handler addr conn

/-- The externally-visible steps `InitializeChain` performs, in order, used to
state ordering properties (which checks ran before which constructions). -/
inductive InitStep where
  | parseConfig
  | loadKeypair
  | setupBs
  | connectStep
  | checkBytecode (addr : Address)
  | createBridge
  | createErc20Handler
  deriving Repr, DecidableEq

/-- Embedding of `InitializeChain` (chain.go:57-115). The Go function returns
`(*Chain, error)`; both return values are kept as an explicit pair, mirroring
each `return` statement, together with the trace of steps performed. -/
def initializeChain (env : InitEnv) (chainCfg : ChainConfig) :
    (Option Chain × Option Err) × List InitStep :=
  match env.parseChainConfig chainCfg with
  | .error e => ((none, some e), [.parseConfig])
  | .ok cfg =>
    match env.keypairFromAddress with
    | .error e => ((none, some e), [.parseConfig, .loadKeypair])
    | .ok _kp =>
      match setupBlockstore env.blockstoreEnv cfg with
      | .error e => ((none, some e), [.parseConfig, .loadKeypair, .setupBs])
      | .ok (bs, cfg1) =>
        match env.connect with
        | .error e =>
            ((none, some e), [.parseConfig, .loadKeypair, .setupBs, .connectStep])
        | .ok _ =>
          match env.ensureHasBytecode cfg1.bridgeContract with
          | .error e =>
              ((none, some e),
               [.parseConfig, .loadKeypair, .setupBs, .connectStep,
                .checkBytecode cfg1.bridgeContract])
          | .ok _ =>
            match env.ensureHasBytecode cfg1.erc20HandlerContract with
            | .error e =>
                ((none, some e),
                 [.parseConfig, .loadKeypair, .setupBs, .connectStep,
                  .checkBytecode cfg1.bridgeContract,
                  .checkBytecode cfg1.erc20HandlerContract])
            | .ok _ =>
              match env.ensureHasBytecode cfg1.genericHandlerContract with
              | .error e =>
                  ((none, some e),
                   [.parseConfig, .loadKeypair, .setupBs, .connectStep,
                    .checkBytecode cfg1.bridgeContract,
                    .checkBytecode cfg1.erc20HandlerContract,
                    .checkBytecode cfg1.genericHandlerContract])
              | .ok _ =>
                match createBridgeContract env cfg1.bridgeContract env.newConnection with
                | .error e =>
                    ((none, some e),
                     [.parseConfig, .loadKeypair, .setupBs, .connectStep,
                      .checkBytecode cfg1.bridgeContract,
                      .checkBytecode cfg1.erc20HandlerContract,
                      .checkBytecode cfg1.genericHandlerContract,
                      .createBridge])
                | .ok bridgeContract =>
                  match createErc20HandlerContract env cfg1.erc20HandlerContract
                      env.newConnection with
                  | .error e =>
                      ((none, some e),
                       [.parseConfig, .loadKeypair, .setupBs, .connectStep,
                        .checkBytecode cfg1.bridgeContract,
                        .checkBytecode cfg1.erc20HandlerContract,
                        .checkBytecode cfg1.genericHandlerContract,
                        .createBridge, .createErc20Handler])
                  | .ok erc20HandlerContract =>
                    let listener :=
                      (NewListener env.newConnection cfg1 bs).SetContracts
                        bridgeContract erc20HandlerContract
                    let writer :=
                      (NewWriter env.newConnection cfg1).SetContract bridgeContract
                    ((some { cfg := chainCfg, conn := env.newConnection,
                             listener := listener, writer := writer }, none),
                     [.parseConfig, .loadKeypair, .setupBs, .connectStep,
                      .checkBytecode cfg1.bridgeContract,
                      .checkBytecode cfg1.erc20HandlerContract,
                      .checkBytecode cfg1.genericHandlerContract,
                      .createBridge, .createErc20Handler])

/-- Embedding of `Chain.SetRouter` (chain.go:117-120): register this chain's
writer under this chain's id, then hand the listener the (updated) router.
The Go code mutates `r` in place; here the updated router is returned next to
the updated chain. -/
def Chain.SetRouter (c : Chain) (r : Router) : Router × Chain :=
  let r1 := r.Listen c.cfg.id c.writer
  (r1, { c with listener := c.listener.SetRouter r1 })

/-- Environment for `Chain.Start`: the outcome of the listener's and the
writer's `Start` calls. -/
structure StartEnv where
  listenerStart : Except Err Unit
  writerStart : Except Err Unit

/-- The externally-visible steps `Chain.Start` performs, in order. -/
inductive StartStep where
  | startListener
  | startWriter
  deriving Repr, DecidableEq

/-- Embedding of `Chain.Start` (chain.go:122-135): start the listener, then
the writer, returning the first error encountered; the trace records which
`Start` calls were made. -/
def chainStart (env : StartEnv) : Option Err × List StartStep :=
  match env.listenerStart with
  | .error e => (some e, [.startListener])
  | .ok _ =>
    match env.writerStart with
    | .error e => (some e, [.startListener, .startWriter])
    | .ok _ => (none, [.startListener, .startWriter])

/-- Environment for `Chain.Stop`: the outcome of the listener's and the
writer's `Stop` calls. -/
structure StopEnv where
  listenerStop : Except Err Unit
  writerStop : Except Err Unit

/-- The externally-visible steps `Chain.Stop` performs, in order. -/
inductive StopStep where
  | stopListener
  | stopWriter
  | closeConn
  deriving Repr, DecidableEq

/-- Embedding of `Chain.Stop` (chain.go:149-163): stop the listener, then the
writer, returning the first error encountered; close the connection only once
both stops returned without error. -/
def chainStop (env : StopEnv) : Option Err × List StopStep :=
  match env.listenerStop with
  | .error e => (some e, [.stopListener])
  | .ok _ =>
    match env.writerStop with
    | .error e => (some e, [.stopListener, .stopWriter])
    | .ok _ => (none, [.stopListener, .stopWriter, .closeConn])

/-- Big-endian base-256 digits of `n`, the embedding of Go `big.Int.Bytes`
(empty for 0). The first argument is structural fuel: `n` itself always
suffices since a number has at most `n` base-256 digits. -/
def natBytesAux : Nat → Nat → List Nat
  | 0, _ => []
  | _ + 1, 0 => []
  | fuel + 1, n + 1 => natBytesAux fuel ((n + 1) / 256) ++ [(n + 1) % 256]

/-- Embedding of Go `big.Int.Bytes` for non-negative values. -/
def natBytes (n : Nat) : List Nat :=
  natBytesAux n n

/-- Modelled from the spec: the structured deposit event the Listener's
contract binding decodes from a raw deposit log (the Listener implementation
is not under src/) — destination chain id, deposit nonce, recipient and
amount for an ERC20 (fungible) deposit. -/
structure DepositEvent where
  destId : ChainId
  depositNonce : Nat
  recipient : Address
  amount : Nat
  deriving Repr, DecidableEq

/-- Modelled from the spec: the Listener's deposit-to-message translation for
an ERC20 deposit (the Listener implementation is not under src/): Source is
the listener's own chain id, Destination and DepositNonce come from the
event, the type is FungibleTransfer, and the Metadata payload is the
recipient address, the amount's bytes, and the configured ERC20 handler
contract address, in that order. -/
def translateDeposit (cfg : Config) (ev : DepositEvent) : Message :=
  { Source := cfg.id
    Destination := ev.destId
    MsgType := .FungibleTransfer
    DepositNonce := ev.depositNonce
    Metadata := [.addr ev.recipient, .bytes (natBytes ev.amount),
                 .addr cfg.erc20HandlerContract] }

/-- Modelled from the spec: a Listener run over the finalized deposit events,
taken in block order then log-index order, produces exactly one Message per
event via `translateDeposit` and hands them to the Router in that order. -/
def listenerRun (cfg : Config) (events : List DepositEvent) : List Message :=
  events.map (translateDeposit cfg)

/-- Modelled from the spec: `Listener.Start` (not under src/) validates that
the required contract bindings are set, fails fast when the initial
connectivity check to the chain fails, then launches the polling loop and
returns; nothing guards against a second call on a started listener. -/
def listenerStart (connAlive : Bool) (l : Listener) : Except Err Listener :=
  if l.bridgeContract = none ∨ l.erc20HandlerContract = none then
    .error "ConfigurationError: contracts not set"
  else if !connAlive then
    .error "connectivity check failed"
  else
    .ok { l with started := true }

/-! Concrete fixtures used to instantiate the theorems below. -/

/-- A blockstore backend whose stored latest block is 5. -/
def wBsEnv : BlockstoreEnv :=
  { newBlockstore := .ok 0, tryLoadLatestBlock := fun _ => .ok 5 }

/-- A sample parsed chain config (non-fresh start from block 3). -/
def wCfg : Config :=
  { id := 0, contract := 0, bridgeContract := 1, erc20HandlerContract := 2,
    genericHandlerContract := 3, freshStart := false, startBlock := 3,
    blockstorePath := "bs", keystorePath := "ks" }

/-- A sample raw chain config. -/
def wChainCfg : ChainConfig := { id := 0, name := "alice", insecure := false }

/-- An initialization environment in which every collaborator succeeds. -/
def wInitEnvOk : InitEnv :=
  { parseChainConfig := fun _ => .ok wCfg
    keypairFromAddress := .ok 5
    blockstoreEnv := wBsEnv
    newConnection := 7
    connect := .ok ()
    ensureHasBytecode := fun _ => .ok ()
    newBridge := fun _ _ => .ok 11
    newErc20Handler := fun _ _ => .ok 12 }

/-- Like `wInitEnvOk` but the ERC20 handler address (2) holds no bytecode. -/
def wInitEnvBad : InitEnv :=
  { wInitEnvOk with
    ensureHasBytecode := fun a =>
      if a = 2 then .error "no bytecode at address" else .ok () }

/-- `wCfg` after the blockstore seeded the cursor from the stored block 5. -/
def wCfg1 : Config := { wCfg with startBlock := 5 }

/-- The chain `initializeChain wInitEnvOk wChainCfg` produces. -/
def wChain0 : Chain :=
  { cfg := wChainCfg, conn := 7,
    listener := (NewListener 7 wCfg1 0).SetContracts 11 12,
    writer := (NewWriter 7 wCfg1).SetContract 11 }

/-- Start environments where both tasks start, or the listener fails. -/
def wStartEnvOk : StartEnv := { listenerStart := .ok (), writerStart := .ok () }

def wStartEnvBad : StartEnv :=
  { listenerStart := .error "listener failed", writerStart := .ok () }

/-- A stop environment where both tasks stop cleanly. -/
def wStopEnvOk : StopEnv := { listenerStop := .ok (), writerStop := .ok () }

/-- Two deposit events with strictly increasing deposit nonces. -/
def wEvents : List DepositEvent :=
  [{ destId := 1, depositNonce := 1, recipient := 21, amount := 10 },
   { destId := 2, depositNonce := 2, recipient := 22, amount := 5 }]

/-- An idle listener with both contract bindings set. -/
def wListener : Listener :=
  { conn := 7, cfg := wCfg, bs := 0, bridgeContract := some 11,
    erc20HandlerContract := some 12, router := none, started := false }

/-! Theorems. -/

theorem bigCmp_eq_one_iff (a b : Int) : bigCmp a b = 1 ↔ b < a := by
  unfold bigCmp
  split
  · omega
  · split <;> omega

theorem setupBlockstore_preserves_contracts (env : BlockstoreEnv) (cfg : Config)
    (bs : Blockstore) (cfg2 : Config)
    (h : setupBlockstore env cfg = .ok (bs, cfg2)) :
    cfg2.bridgeContract = cfg.bridgeContract ∧
    cfg2.erc20HandlerContract = cfg.erc20HandlerContract ∧
    cfg2.genericHandlerContract = cfg.genericHandlerContract := by
  unfold setupBlockstore at h
  split at h
  · simp at h
  · split at h
    · split at h
      · simp at h
      · split at h <;>
          (simp only [Except.ok.injEq, Prod.mk.injEq] at h;
           obtain ⟨h1, h2⟩ := h; subst h2; simp)
    · simp only [Except.ok.injEq, Prod.mk.injEq] at h
      obtain ⟨h1, h2⟩ := h
      subst h2
      exact ⟨rfl, rfl, rfl⟩

/-- Claim C1: when `freshStart` is false, `setupBlockstore` seeds the scan
cursor to the maximum of the configured start height and the stored
checkpoint — it replaces `cfg.startBlock` with the blockstore's latest known
block exactly when that block is strictly greater than `cfg.startBlock`, and
otherwise leaves the config unchanged; when `freshStart` is true the stored
checkpoint is ignored and the config is returned as configured. -/
theorem setupBlockstore_seeds_cursor (env : BlockstoreEnv) (cfg : Config)
    (bs : Blockstore) (cfg2 : Config)
    (h : setupBlockstore env cfg = .ok (bs, cfg2)) :
    (cfg.freshStart = true → cfg2 = cfg) ∧
    (cfg.freshStart = false →
      ∃ latest : Int, env.tryLoadLatestBlock bs = .ok latest ∧
        cfg2.startBlock = max cfg.startBlock latest ∧
        (cfg.startBlock < latest → cfg2 = { cfg with startBlock := latest }) ∧
        (¬ cfg.startBlock < latest → cfg2 = cfg)) := by
  unfold setupBlockstore at h
  split at h
  · simp at h
  · rename_i bs0 heq
    split at h
    · rename_i hfresh
      have hf : cfg.freshStart = false := by
        simpa using hfresh
      split at h
      · simp at h
      · rename_i latest htl
        split at h <;>
          (rename_i hcmp;
           simp only [Except.ok.injEq, Prod.mk.injEq] at h;
           obtain ⟨h1, h2⟩ := h; subst h1; subst h2)
        · rw [bigCmp_eq_one_iff] at hcmp
          constructor
          · intro hc
            simp [hc] at hf
          · intro _
            refine ⟨latest, htl, ?_, fun _ => rfl, fun hn => absurd hcmp hn⟩
            simp
            omega
        · rw [bigCmp_eq_one_iff] at hcmp
          constructor
          · intro hc
            simp [hc] at hf
          · intro _
            refine ⟨latest, htl, ?_, fun hlt => absurd hlt hcmp, fun _ => rfl⟩
            omega
    · rename_i hfresh
      have hf : cfg.freshStart = true := by
        simpa using hfresh
      simp only [Except.ok.injEq, Prod.mk.injEq] at h
      obtain ⟨h1, h2⟩ := h
      subst h2
      exact ⟨fun _ => rfl, fun hc => by simp [hc] at hf⟩

/-- Witness for `setupBlockstore_seeds_cursor` at the concrete fixture:
stored block 5 exceeds the configured start 3, so the cursor becomes 5. -/
theorem setupBlockstore_seeds_cursor_witness :
    (wCfg.freshStart = true → wCfg1 = wCfg) ∧
    (wCfg.freshStart = false →
      ∃ latest : Int, wBsEnv.tryLoadLatestBlock 0 = .ok latest ∧
        wCfg1.startBlock = max wCfg.startBlock latest ∧
        (wCfg.startBlock < latest → wCfg1 = { wCfg with startBlock := latest }) ∧
        (¬ wCfg.startBlock < latest → wCfg1 = wCfg)) :=
  setupBlockstore_seeds_cursor wBsEnv wCfg 0 wCfg1 rfl

/-- Claim C2: for every configuration in which any of the three configured
contract addresses (bridge, ERC20 handler, generic handler) holds no deployed
bytecode, `InitializeChain` returns an error and no Chain, and the bytecode
checks happen before any contract binding is created: no binding-creation
step occurs in the run at all. -/
theorem initializeChain_bytecode_guard (env : InitEnv) (chainCfg : ChainConfig)
    (cfg : Config) (hcfg : env.parseChainConfig chainCfg = .ok cfg)
    (addr : Address)
    (haddr : addr = cfg.bridgeContract ∨ addr = cfg.erc20HandlerContract ∨
      addr = cfg.genericHandlerContract)
    (e : Err) (he : env.ensureHasBytecode addr = .error e) :
    (initializeChain env chainCfg).1.1 = none ∧
    (∃ e2, (initializeChain env chainCfg).1.2 = some e2) ∧
    (∀ s ∈ (initializeChain env chainCfg).2,
      s ≠ InitStep.createBridge ∧ s ≠ InitStep.createErc20Handler) := by
  rcases hk : env.keypairFromAddress with ek | kp
  · simp [initializeChain, hcfg, hk]
  · rcases hsb : setupBlockstore env.blockstoreEnv cfg with esb | ⟨bs, cfg1⟩
    · simp [initializeChain, hcfg, hk, hsb]
    · obtain ⟨hb, he20, hg⟩ := setupBlockstore_preserves_contracts _ _ _ _ hsb
      rcases hc : env.connect with ec | ⟨⟩
      · simp [initializeChain, hcfg, hk, hsb, hc]
      · rcases h1 : env.ensureHasBytecode cfg1.bridgeContract with e1 | ⟨⟩
        · simp [initializeChain, hcfg, hk, hsb, hc, h1]
        · rcases h2 : env.ensureHasBytecode cfg1.erc20HandlerContract with e2 | ⟨⟩
          · simp [initializeChain, hcfg, hk, hsb, hc, h1, h2]
          · rcases h3 : env.ensureHasBytecode cfg1.genericHandlerContract with e3 | ⟨⟩
            · simp [initializeChain, hcfg, hk, hsb, hc, h1, h2, h3]
            · exfalso
              rcases haddr with rfl | rfl | rfl
              · rw [hb, he] at h1
                cases h1
              · rw [he20, he] at h2
                cases h2
              · rw [hg, he] at h3
                cases h3

/-- Witness for `initializeChain_bytecode_guard`: in `wInitEnvBad` the ERC20
handler address 2 holds no bytecode, so initialization fails with no Chain
and no binding is created. -/
theorem initializeChain_bytecode_guard_witness :
    (initializeChain wInitEnvBad wChainCfg).1.1 = none ∧
    (∃ e2, (initializeChain wInitEnvBad wChainCfg).1.2 = some e2) ∧
    (∀ s ∈ (initializeChain wInitEnvBad wChainCfg).2,
      s ≠ InitStep.createBridge ∧ s ≠ InitStep.createErc20Handler) :=
  initializeChain_bytecode_guard wInitEnvBad wChainCfg wCfg rfl 2
    (Or.inr (Or.inl rfl)) "no bytecode at address" rfl

/-- Claim C5: on every failure path `InitializeChain` returns a nil Chain
together with the error, and a Chain value is produced only when every
initialization step (config parsing, keypair loading, blockstore setup,
connecting, all three bytecode checks, both binding creations) succeeded. -/
theorem initializeChain_chain_only_on_success (env : InitEnv)
    (chainCfg : ChainConfig) :
    (∀ e, (initializeChain env chainCfg).1.2 = some e →
      (initializeChain env chainCfg).1.1 = none) ∧
    (∀ c, (initializeChain env chainCfg).1.1 = some c →
      (initializeChain env chainCfg).1.2 = none ∧
      ∃ cfg bs cfg1 kp bc ec,
        env.parseChainConfig chainCfg = .ok cfg ∧
        env.keypairFromAddress = .ok kp ∧
        setupBlockstore env.blockstoreEnv cfg = .ok (bs, cfg1) ∧
        env.connect = .ok () ∧
        env.ensureHasBytecode cfg1.bridgeContract = .ok () ∧
        env.ensureHasBytecode cfg1.erc20HandlerContract = .ok () ∧
        env.ensureHasBytecode cfg1.genericHandlerContract = .ok () ∧
        createBridgeContract env cfg1.bridgeContract env.newConnection = .ok bc ∧
        createErc20HandlerContract env cfg1.erc20HandlerContract
          env.newConnection = .ok ec) := by
  rcases hcfg : env.parseChainConfig chainCfg with e0 | cfg
  · simp [initializeChain, hcfg]
  · rcases hk : env.keypairFromAddress with ek | kp
    · simp [initializeChain, hcfg, hk]
    · rcases hsb : setupBlockstore env.blockstoreEnv cfg with esb | ⟨bs, cfg1⟩
      · simp [initializeChain, hcfg, hk, hsb]
      · rcases hc : env.connect with ec | ⟨⟩
        · simp [initializeChain, hcfg, hk, hsb, hc]
        · rcases h1 : env.ensureHasBytecode cfg1.bridgeContract with e1 | ⟨⟩
          · simp [initializeChain, hcfg, hk, hsb, hc, h1]
          · rcases h2 : env.ensureHasBytecode cfg1.erc20HandlerContract with e2 | ⟨⟩
            · simp [initializeChain, hcfg, hk, hsb, hc, h1, h2]
            · rcases h3 : env.ensureHasBytecode cfg1.genericHandlerContract with
                e3 | ⟨⟩
              · simp [initializeChain, hcfg, hk, hsb, hc, h1, h2, h3]
              · rcases hbr : createBridgeContract env cfg1.bridgeContract
                  env.newConnection with ebr | bc
                · simp [initializeChain, hcfg, hk, hsb, hc, h1, h2, h3, hbr]
                · rcases her : createErc20HandlerContract env
                    cfg1.erc20HandlerContract env.newConnection with eer | ec
                  · simp [initializeChain, hcfg, hk, hsb, hc, h1, h2, h3, hbr, her]
                  · constructor
                    · intro e hsome
                      simp [initializeChain, hcfg, hk, hsb, hc, h1, h2, h3,
                        hbr, her] at hsome
                    · intro c _
                      refine ⟨by simp [initializeChain, hcfg, hk, hsb, hc, h1,
                          h2, h3, hbr, her], cfg, bs, cfg1, kp, bc, ec,
                        rfl, rfl, hsb, rfl, h1, h2, h3, hbr, her⟩

/-- Witness for `initializeChain_chain_only_on_success`: the failing
environment yields no Chain, and the all-success environment yields a Chain
with no error. -/
theorem initializeChain_chain_only_on_success_witness :
    (initializeChain wInitEnvBad wChainCfg).1.1 = none ∧
    (initializeChain wInitEnvOk wChainCfg).1.2 = none :=
  ⟨(initializeChain_chain_only_on_success wInitEnvBad wChainCfg).1
      "no bytecode at address" rfl,
    ((initializeChain_chain_only_on_success wInitEnvOk wChainCfg).2
      wChain0 rfl).1⟩

/-- Claim C3: `Chain.Stop` stops the Listener and then the Writer and, when
both stops succeed, closes the Connection and returns nil; the Connection is
closed only after both tasks have been stopped. -/
theorem chainStop_both_then_close (env : StopEnv) :
    (env.listenerStop = .ok () → env.writerStop = .ok () →
      chainStop env =
        (none, [StopStep.stopListener, StopStep.stopWriter, StopStep.closeConn])) ∧
    (StopStep.closeConn ∈ (chainStop env).2 →
      env.listenerStop = .ok () ∧ env.writerStop = .ok () ∧
      (chainStop env).2 =
        [StopStep.stopListener, StopStep.stopWriter, StopStep.closeConn]) := by
  rcases hl : env.listenerStop with el | ⟨⟩
  · constructor
    · intro hc
      simp at hc
    · intro hmem
      simp [chainStop, hl] at hmem
  · rcases hw : env.writerStop with ew | ⟨⟩
    · constructor
      · intro _ hc
        simp at hc
      · intro hmem
        simp [chainStop, hl, hw] at hmem
    · exact ⟨fun _ _ => by simp [chainStop, hl, hw],
        fun _ => ⟨rfl, rfl, by simp [chainStop, hl, hw]⟩⟩

/-- Witness for `chainStop_both_then_close`: with both stops succeeding, the
trace is stop-listener, stop-writer, close-connection with a nil result. -/
theorem chainStop_both_then_close_witness :
    chainStop wStopEnvOk =
      (none, [StopStep.stopListener, StopStep.stopWriter, StopStep.closeConn]) :=
  (chainStop_both_then_close wStopEnvOk).1 rfl rfl

/-- Claim C9: `Chain.Start` starts the Listener before the Writer; when
`Listener.Start` fails, that error is returned and the Writer is never
started; nil is returned exactly when both starts succeed. -/
theorem chainStart_listener_first (env : StartEnv) :
    (∀ e, env.listenerStart = .error e →
      chainStart env = (some e, [StartStep.startListener])) ∧
    ((chainStart env).1 = none ↔
      env.listenerStart = .ok () ∧ env.writerStart = .ok ()) ∧
    (chainStart env).2.head? = some StartStep.startListener := by
  rcases hl : env.listenerStart with el | ⟨⟩
  · refine ⟨fun e he => ?_, ?_, by simp [chainStart, hl]⟩
    · injection he with h2
      subst h2
      simp [chainStart, hl]
    · simp [chainStart, hl]
  · rcases hw : env.writerStart with ew | ⟨⟩
    · refine ⟨fun e he => ?_, ?_, by simp [chainStart, hl, hw]⟩
      · simp at he
      · simp [chainStart, hl, hw]
    · refine ⟨fun e he => ?_, ?_, by simp [chainStart, hl, hw]⟩
      · simp at he
      · simp [chainStart, hl, hw]

/-- Witness for `chainStart_listener_first`: a failing listener start yields
that error with the writer never started; with both succeeding the result is
nil; in both cases the listener is started first. -/
theorem chainStart_listener_first_witness :
    chainStart wStartEnvBad = (some "listener failed", [StartStep.startListener]) ∧
    (chainStart wStartEnvOk).1 = none :=
  ⟨(chainStart_listener_first wStartEnvBad).1 "listener failed" rfl,
    ((chainStart_listener_first wStartEnvOk).2.1).2 ⟨rfl, rfl⟩⟩

/-- Claim C8: `Chain.SetRouter` registers exactly this chain's own Writer
under this chain's own ChainId via `Router.Listen` (one new registration for
that id), and hands this chain's Listener a handle to that same updated
Router. -/
theorem chain_SetRouter_registers_own_writer (c : Chain) (r : Router) :
    ((c.SetRouter r).1).registered = r.registered ++ [(c.cfg.id, c.writer)] ∧
    ((c.SetRouter r).2).listener.router = some (c.SetRouter r).1 ∧
    (((c.SetRouter r).1).registered.countP (fun p => decide (p.1 = c.cfg.id)) =
      r.registered.countP (fun p => decide (p.1 = c.cfg.id)) + 1) ∧
    ((c.SetRouter r).2).writer = c.writer ∧
    ((c.SetRouter r).2).cfg = c.cfg := by
  refine ⟨rfl, rfl, ?_, rfl, rfl⟩
  simp [Chain.SetRouter, Router.Listen, List.countP_append, List.countP_cons]

/-- Claim C4: a single ERC20 deposit event with source chain id 0,
destination chain id 1, deposit nonce 1, amount 10 and Bob's address as
recipient, observed by the listener, yields exactly one Message
{Source 0, Destination 1, FungibleTransfer, DepositNonce 1,
Metadata [recipient address, amount bytes, ERC20 handler address]}
handed to the router. -/
theorem listener_deposit_happy_path (bob handler : Address) :
    listenerRun { wCfg with id := 0, erc20HandlerContract := handler }
        [{ destId := 1, depositNonce := 1, recipient := bob, amount := 10 }] =
      [{ Source := 0, Destination := 1,
         MsgType := TransferType.FungibleTransfer, DepositNonce := 1,
         Metadata := [MetaItem.addr bob, MetaItem.bytes [10],
                      MetaItem.addr handler] }] :=
  rfl

/-- Claim C7: over a run of the (spec-modelled) Listener, whose input deposit
events carry the source chain's strictly increasing deposit nonces, the
produced Messages have pairwise distinct (Source, DepositNonce) pairs and
strictly increasing DepositNonce values in production order. -/
theorem listenerRun_nonces_unique_increasing (cfg : Config)
    (events : List DepositEvent)
    (h : events.Pairwise (fun a b => a.depositNonce < b.depositNonce)) :
    ((listenerRun cfg events).Pairwise
      (fun m1 m2 => m1.DepositNonce < m2.DepositNonce)) ∧
    ((listenerRun cfg events).Pairwise
      (fun m1 m2 =>
        (m1.Source, m1.DepositNonce) ≠ (m2.Source, m2.DepositNonce))) := by
  constructor
  · rw [listenerRun, List.pairwise_map]
    exact h.imp (fun hab => hab)
  · rw [listenerRun, List.pairwise_map]
    refine h.imp ?_
    intro a b hab
    simp only [translateDeposit, ne_eq, Prod.mk.injEq, not_and]
    intro _
    omega

/-- Witness for `listenerRun_nonces_unique_increasing` on two concrete
deposit events with nonces 1 and 2. -/
theorem listenerRun_nonces_unique_increasing_witness :
    ((listenerRun wCfg wEvents).Pairwise
      (fun m1 m2 => m1.DepositNonce < m2.DepositNonce)) ∧
    ((listenerRun wCfg wEvents).Pairwise
      (fun m1 m2 =>
        (m1.Source, m1.DepositNonce) ≠ (m2.Source, m2.DepositNonce))) :=
  listenerRun_nonces_unique_increasing wCfg wEvents (by decide)

/-- Claim C10: modelled from the spec — `Listener.Start` on an
already-started listener returns no error: a second Start re-validates the
same bindings and connectivity and succeeds whenever the first did. -/
theorem listenerStart_idempotent (connAlive : Bool) (l l2 : Listener)
    (h : listenerStart connAlive l = .ok l2) :
    listenerStart connAlive l2 = .ok { l2 with started := true } := by
  unfold listenerStart at h ⊢
  split at h
  · simp at h
  · split at h
    · simp at h
    · rename_i hc1 hc2
      injection h with h2
      subst h2
      simp_all

/-- Witness for `listenerStart_idempotent`: starting `wListener` twice
succeeds. -/
theorem listenerStart_idempotent_witness :
    listenerStart true { wListener with started := true } =
      .ok { { wListener with started := true } with started := true } :=
  listenerStart_idempotent true wListener { wListener with started := true } rfl
